import Mathlib

/-!
# Host allocation and synchronised memory (include/caffe/syncedmem.hpp)

A shallow embedding of `CaffeMallocHost`, `CaffeFreeHost` and the inline members of
`SyncedMemory` declared in `include/caffe/syncedmem.hpp`.

Conventions.
* `size_t` values are natural numbers below `2 ^ 64`; every arithmetic step of the source is
  followed by an explicit reduction modulo `2 ^ 64`.
* Pointers are natural numbers, `0` being the null pointer.
* `#ifndef CPU_ONLY` and `#ifdef USE_MKL` are the two booleans of `Build`.
* External routines (`cudaMallocHost`, `mkl_malloc`, `posix_memalign`, ...) are fields of
  `Env`: arbitrary functions giving what the routine reports and what it stores.
* A run is a pair of the external calls made, in order, and `some` result when the function
  returns or `none` when a fatal check terminated the process.
-/

namespace caffe

/-! ## Data model -/

/-- The number of values of a `size_t` (64-bit). -/
def SIZE_MOD : Nat := 2 ^ 64

/-- The enumeration `SyncedMemory::SyncedHead`. -/
inductive SyncedHead where
  | UNINITIALIZED
  | HEAD_AT_CPU
  | HEAD_AT_GPU
  | SYNCED
  deriving DecidableEq, Repr

/-- The private data members of `class SyncedMemory`, in declaration order. -/
structure SyncedMemory where
  refer_num : Int
  cpu_ptr_ : Nat
  gpu_ptr_ : Nat
  size_ : Nat
  aligned_size_ : Nat
  head_ : SyncedHead
  own_cpu_data_ : Bool
  cpu_malloc_use_cuda_ : Bool
  own_gpu_data_ : Bool
  device_ : Int
  deriving DecidableEq, Repr

/-- The member `SyncedMemory::set_align_size`:
`aligned_size_ = ((size + 4095) / 4096) * 4096;` in `size_t` arithmetic. -/
def set_align_size (m : SyncedMemory) (size : Nat) : SyncedMemory :=
  { m with aligned_size_ := (((size + 4095) % SIZE_MOD) / 4096 * 4096) % SIZE_MOD }

/-- The member `SyncedMemory::get_align_size`: `return aligned_size_;`. -/
def get_align_size (m : SyncedMemory) : Nat :=
  m.aligned_size_

/-- A buffer with every member zero, null or false and `head_ = UNINITIALIZED`; used as a
concrete receiver in examples. -/
def blank : SyncedMemory :=
  { refer_num := 0, cpu_ptr_ := 0, gpu_ptr_ := 0, size_ := 0, aligned_size_ := 0,
    head_ := SyncedHead.UNINITIALIZED, own_cpu_data_ := false, cpu_malloc_use_cuda_ := false,
    own_gpu_data_ := false, device_ := 0 }

/-! ## External collaborators -/

/-- The compile-time configuration: `cpu_only` is true when `CPU_ONLY` is defined (no
accelerator support compiled in), `use_mkl` is true when `USE_MKL` is defined. -/
structure Build where
  cpu_only : Bool
  use_mkl : Bool
  deriving DecidableEq, Repr

/-- The ambient execution mode returned by `Caffe::mode()` (`caffe/common.hpp`). -/
inductive Brew where
  | CPU
  | GPU
  deriving DecidableEq, Repr

/-- One call of an external routine, with the arguments that matter. The first six are the
routines called by `CaffeMallocHost` and `CaffeFreeHost`; the last four are the device memory
API of the specification (section 6). -/
inductive Call where
  | cudaMallocHost (bytes : Nat)
  | mkl_malloc (bytes : Nat) (alignment : Nat)
  | posix_memalign (alignment : Nat) (bytes : Nat)
  | cudaFreeHost (p : Nat)
  | mkl_free (p : Nat)
  | free (p : Nat)
  | device_alloc (bytes : Nat)
  | device_free (p : Nat)
  | copy_host_to_device
  | copy_device_to_host
  deriving DecidableEq, Repr

/-- What the external routines answer. A status of `0` is success (`cudaSuccess`).
* `cudaMallocHost old bytes` and `posix_memalign old alignment bytes` give the status and the
  content of `*ptr` after the call, `old` being its content before;
* `mkl_malloc bytes alignment` gives the returned pointer;
* `cudaFreeHost p` gives the status;
* the last four fields are the device memory API of the specification. -/
structure Env where
  mode : Brew
  cudaMallocHost : Nat → Nat → Nat × Nat
  mkl_malloc : Nat → Nat → Nat
  posix_memalign : Nat → Nat → Nat → Nat × Nat
  cudaFreeHost : Nat → Nat
  device_alloc : Nat → Nat → Nat × Nat
  device_free : Nat → Nat
  copy_host_to_device : Nat → Nat → Nat → Nat
  copy_device_to_host : Nat → Nat → Nat → Nat

/-- A run: the external calls made, in order, and the result; `none` when a fatal check
terminated the process. -/
structure Run (α : Type) where
  calls : List Call
  result : Option α

/-- Sequencing of two runs: the second starts only when the first returned. -/
def Run.andThen {α β : Type} (r : Run α) (f : α → Run β) : Run β :=
  match r.result with
  | none => ⟨r.calls, none⟩
  | some a => ⟨r.calls ++ (f a).calls, (f a).result⟩

/-- Modelled from the spec: the macro `CHECK` (glog, reached through `caffe/common.hpp`,
outside this header) is the "process-terminating check" of section 4.1: the process goes on
only when the condition holds. -/
def CHECK {α : Type} (cond : Bool) (k : Option α) : Option α :=
  if cond then k else none

/-- Modelled from the spec: the macro `CUDA_CHECK` (`caffe/common.hpp`, outside this header):
device API failures are "fatal-on-failure" (section 6), so the process goes on only when the
status is `cudaSuccess`. -/
def CUDA_CHECK {α : Type} (status : Nat) (k : Option α) : Option α :=
  if status = 0 then k else none

/-! ## Host allocator -/

/-- The function `CaffeMallocHost(void** ptr, size_t size, bool* use_cuda, size_t aligned_size)`.
`ptr` and `_use_cuda` are the contents of `*ptr` and `*use_cuda` before the call (the second
is never read); the result is their contents when the call returns. -/
def CaffeMallocHost (b : Build) (env : Env) (ptr : Nat) (size : Nat) (_use_cuda : Bool)
    (aligned_size : Nat) : Run (Nat × Bool) :=
  if b.cpu_only = false ∧ env.mode = Brew.GPU then
    -- CUDA_CHECK(cudaMallocHost(ptr, aligned_size)); *use_cuda = true; return;
    ⟨[Call.cudaMallocHost aligned_size],
      CUDA_CHECK (env.cudaMallocHost ptr aligned_size).1
        (some ((env.cudaMallocHost ptr aligned_size).2, true))⟩
  else if b.use_mkl then
    -- *ptr = mkl_malloc(size ? size:1, 64); *use_cuda = false; CHECK(*ptr)
    ⟨[Call.mkl_malloc (if size ≠ 0 then size else 1) 64],
      CHECK (decide (env.mkl_malloc (if size ≠ 0 then size else 1) 64 ≠ 0))
        (some (env.mkl_malloc (if size ≠ 0 then size else 1) 64, false))⟩
  else
    -- posix_memalign(ptr, 4096, aligned_size); *use_cuda = false; CHECK(*ptr)
    ⟨[Call.posix_memalign 4096 aligned_size],
      CHECK (decide ((env.posix_memalign ptr 4096 aligned_size).2 ≠ 0))
        (some ((env.posix_memalign ptr 4096 aligned_size).2, false))⟩

/-- The function `CaffeFreeHost(void* ptr, bool use_cuda)`. -/
def CaffeFreeHost (b : Build) (env : Env) (ptr : Nat) (use_cuda : Bool) : Run Unit :=
  if b.cpu_only = false ∧ use_cuda = true then
    -- CUDA_CHECK(cudaFreeHost(ptr)); return;
    ⟨[Call.cudaFreeHost ptr], CUDA_CHECK (env.cudaFreeHost ptr) (some ())⟩
  else if b.use_mkl then
    ⟨[Call.mkl_free ptr], some ()⟩
  else
    ⟨[Call.free ptr], some ()⟩

/-- The byte count a call requests from an allocator; `none` for a call that is not an
allocation. -/
def Call.requested : Call → Option Nat
  | Call.cudaMallocHost n => some n
  | Call.mkl_malloc n _ => some n
  | Call.posix_memalign _ n => some n
  | Call.device_alloc n => some n
  | _ => none

/-- The byte counts requested from allocators during a run, in order. -/
def requestedBytes (cs : List Call) : List Nat :=
  cs.filterMap Call.requested

/-- Whether a call is the pinned (page-locked) host allocation. -/
def Call.isPinnedAlloc : Call → Bool
  | Call.cudaMallocHost _ => true
  | _ => false

/-- Whether a call is a plain host allocation (math library or `posix_memalign`). -/
def Call.isPlainAlloc : Call → Bool
  | Call.mkl_malloc _ _ => true
  | Call.posix_memalign _ _ => true
  | _ => false

/-- Whether a call releases memory. -/
def Call.isFree : Call → Bool
  | Call.cudaFreeHost _ => true
  | Call.mkl_free _ => true
  | Call.free _ => true
  | Call.device_free _ => true
  | _ => false

/-- Whether a call copies the buffer between host and device. -/
def Call.isCopy : Call → Bool
  | Call.copy_host_to_device => true
  | Call.copy_device_to_host => true
  | _ => false

/-- The free routine that matches a host allocator, applied to `p`: `cudaFreeHost` for
`cudaMallocHost`, `mkl_free` for `mkl_malloc`, `free` for `posix_memalign`. -/
def matchingFree (p : Nat) : Call → Option Call
  | Call.cudaMallocHost _ => some (Call.cudaFreeHost p)
  | Call.mkl_malloc _ _ => some (Call.mkl_free p)
  | Call.posix_memalign _ _ => some (Call.free p)
  | _ => none

/-- An environment in mode `mode` where every routine succeeds. -/
def envOk (mode : Brew) : Env :=
  { mode := mode
    cudaMallocHost := fun _ _ => (0, 4096)
    mkl_malloc := fun _ _ => 64
    posix_memalign := fun _ _ _ => (0, 8192)
    cudaFreeHost := fun _ => 0
    device_alloc := fun _ _ => (0, 12288)
    device_free := fun _ => 0
    copy_host_to_device := fun _ _ _ => 0
    copy_device_to_host := fun _ _ _ => 0 }

/-- An environment in GPU mode where the pinned allocator reports success for a request of
zero bytes and stores a null pointer. -/
def envPinnedNull : Env :=
  { envOk Brew.GPU with cudaMallocHost := fun _ bytes => if bytes = 0 then (0, 0) else (0, 4096) }

/-- The three build configurations named by the claims. -/
def acceleratorBuild : Build := { cpu_only := false, use_mkl := false }

def mklBuild : Build := { cpu_only := true, use_mkl := true }

def plainBuild : Build := { cpu_only := true, use_mkl := false }

/-! ## Synchronised buffer

The bodies of the accessors and of the reference-count operations are in `syncedmem.cpp`,
outside this header, which only declares them. They are modelled
from the specification (sections 4.2, 4.3, 6 and 7). The content of the two regions and the
device-context selection are outside this model: it records the state `head_`, the pointers,
the ownership flags, the reference count, and every allocation, release and copy made. -/

/-- Modelled from the spec: "allocate host region if absent" (section 4.2), the body being in
`syncedmem.cpp`. The region is requested through `CaffeMallocHost` with the buffer's `size_`
and `aligned_size_`, and the buffer then owns it. -/
def alloc_host_if_absent (b : Build) (env : Env) (m : SyncedMemory) : Run SyncedMemory :=
  if m.cpu_ptr_ = 0 then
    (CaffeMallocHost b env m.cpu_ptr_ m.size_ m.cpu_malloc_use_cuda_ m.aligned_size_).andThen
      fun r => ⟨[], some { m with cpu_ptr_ := r.1, cpu_malloc_use_cuda_ := r.2,
                                   own_cpu_data_ := true }⟩
  else ⟨[], some m⟩

/-- Modelled from the spec: "allocate device region if absent" (section 4.2), the body being
in `syncedmem.cpp`. The request is `aligned_size_` bytes ("the value passed to allocators"),
fatal on failure (section 6), and the buffer then owns the region. -/
def alloc_device_if_absent (env : Env) (m : SyncedMemory) : Run SyncedMemory :=
  if m.gpu_ptr_ = 0 then
    ⟨[Call.device_alloc m.aligned_size_],
      CUDA_CHECK (env.device_alloc m.gpu_ptr_ m.aligned_size_).1
        (some { m with gpu_ptr_ := (env.device_alloc m.gpu_ptr_ m.aligned_size_).2,
                       own_gpu_data_ := true })⟩
  else ⟨[], some m⟩

/-- Modelled from the spec: the private member `to_cpu` (body in `syncedmem.cpp`), the
"read host" rows of the transition table of section 4.2:
`UNINITIALIZED` gives `HEAD_AT_CPU` after allocating the host region if absent;
`HEAD_AT_GPU` gives `SYNCED` after allocating the host region if absent and one device to
host copy (fatal on failure, and fatal in a host-only build, which has no device);
`HEAD_AT_CPU` and `SYNCED` are left unchanged with no copy. -/
def to_cpu (b : Build) (env : Env) (m : SyncedMemory) : Run SyncedMemory :=
  match m.head_ with
  | SyncedHead.UNINITIALIZED =>
    (alloc_host_if_absent b env m).andThen
      fun m1 => ⟨[], some { m1 with head_ := SyncedHead.HEAD_AT_CPU }⟩
  | SyncedHead.HEAD_AT_GPU =>
    if b.cpu_only then ⟨[], none⟩
    else
      (alloc_host_if_absent b env m).andThen
        fun m1 => ⟨[Call.copy_device_to_host],
          CUDA_CHECK (env.copy_device_to_host m1.cpu_ptr_ m1.gpu_ptr_ m1.size_)
            (some { m1 with head_ := SyncedHead.SYNCED })⟩
  | SyncedHead.HEAD_AT_CPU => ⟨[], some m⟩
  | SyncedHead.SYNCED => ⟨[], some m⟩

/-- Modelled from the spec: the private member `to_gpu` (body in `syncedmem.cpp`), the
"read device" rows of the transition table of section 4.2. Requesting device access in a
host-only build is fatal (section 7). Otherwise:
`UNINITIALIZED` gives `HEAD_AT_GPU` after allocating the device region if absent;
`HEAD_AT_CPU` gives `SYNCED` after allocating the device region if absent and one host to
device copy (fatal on failure);
`HEAD_AT_GPU` and `SYNCED` are left unchanged with no copy. -/
def to_gpu (b : Build) (env : Env) (m : SyncedMemory) : Run SyncedMemory :=
  if b.cpu_only then ⟨[], none⟩
  else
    match m.head_ with
    | SyncedHead.UNINITIALIZED =>
      (alloc_device_if_absent env m).andThen
        fun m1 => ⟨[], some { m1 with head_ := SyncedHead.HEAD_AT_GPU }⟩
    | SyncedHead.HEAD_AT_CPU =>
      (alloc_device_if_absent env m).andThen
        fun m1 => ⟨[Call.copy_host_to_device],
          CUDA_CHECK (env.copy_host_to_device m1.gpu_ptr_ m1.cpu_ptr_ m1.size_)
            (some { m1 with head_ := SyncedHead.SYNCED })⟩
    | SyncedHead.HEAD_AT_GPU => ⟨[], some m⟩
    | SyncedHead.SYNCED => ⟨[], some m⟩

/-- Modelled from the spec: the host-read accessor `cpu_data()` (body in `syncedmem.cpp`):
brings the host side current and returns the host pointer; "a read accessor never
invalidates the other side". -/
def cpu_data (b : Build) (env : Env) (m : SyncedMemory) : Run (SyncedMemory × Nat) :=
  (to_cpu b env m).andThen fun m1 => ⟨[], some (m1, m1.cpu_ptr_)⟩

/-- Modelled from the spec: the device-read accessor `gpu_data()` (body in `syncedmem.cpp`):
brings the device side current and returns the device pointer. -/
def gpu_data (b : Build) (env : Env) (m : SyncedMemory) : Run (SyncedMemory × Nat) :=
  (to_gpu b env m).andThen fun m1 => ⟨[], some (m1, m1.gpu_ptr_)⟩

/-- Modelled from the spec: the host-mutable accessor `mutable_cpu_data()` (body in
`syncedmem.cpp`): brings the host side current, then "demotes the buffer ... into
single-ownership of the side being written": `head_` becomes `HEAD_AT_CPU`. -/
def mutable_cpu_data (b : Build) (env : Env) (m : SyncedMemory) : Run (SyncedMemory × Nat) :=
  (to_cpu b env m).andThen
    fun m1 => ⟨[], some ({ m1 with head_ := SyncedHead.HEAD_AT_CPU }, m1.cpu_ptr_)⟩

/-- Modelled from the spec: the device-mutable accessor `mutable_gpu_data()` (body in
`syncedmem.cpp`): brings the device side current, then `head_` becomes `HEAD_AT_GPU`. -/
def mutable_gpu_data (b : Build) (env : Env) (m : SyncedMemory) : Run (SyncedMemory × Nat) :=
  (to_gpu b env m).andThen
    fun m1 => ⟨[], some ({ m1 with head_ := SyncedHead.HEAD_AT_GPU }, m1.gpu_ptr_)⟩

/-- Modelled from the spec: `default_reference()` (body in `syncedmem.cpp`) "sets
`ref_count` to 1". -/
def default_reference (m : SyncedMemory) : SyncedMemory :=
  { m with refer_num := 1 }

/-- Modelled from the spec: `increase_reference()` (body in `syncedmem.cpp`) "increments
`ref_count`". -/
def increase_reference (m : SyncedMemory) : SyncedMemory :=
  { m with refer_num := m.refer_num + 1 }

/-- Modelled from the spec: the explicit release `zhihan_release()` (body in
`syncedmem.cpp`) "unconditionally frees both regions now (if self-owned), resets both
pointers to null and `head` to `UNINITIALIZED`, regardless of `ref_count`". A region is
there when its pointer is not null; the host region goes through `CaffeFreeHost` with the
recorded pinned flag, the device region through the device free, fatal on failure. -/
def zhihan_release (b : Build) (env : Env) (m : SyncedMemory) : Run SyncedMemory :=
  (if m.cpu_ptr_ ≠ 0 ∧ m.own_cpu_data_ = true
    then CaffeFreeHost b env m.cpu_ptr_ m.cpu_malloc_use_cuda_
    else ⟨[], some ()⟩).andThen fun _ =>
  (if m.gpu_ptr_ ≠ 0 ∧ m.own_gpu_data_ = true
    then (⟨[Call.device_free m.gpu_ptr_], CUDA_CHECK (env.device_free m.gpu_ptr_) (some ())⟩ :
      Run Unit)
    else ⟨[], some ()⟩).andThen fun _ =>
  ⟨[], some { m with cpu_ptr_ := 0, gpu_ptr_ := 0, head_ := SyncedHead.UNINITIALIZED }⟩

/-- Modelled from the spec: `decrease_reference()` (body in `syncedmem.cpp`) "decrements
`ref_count`; if it reaches zero, triggers an immediate release of both memory regions
(equivalent to the explicit release)". -/
def decrease_reference (b : Build) (env : Env) (m : SyncedMemory) : Run SyncedMemory :=
  if m.refer_num - 1 = 0 then zhihan_release b env { m with refer_num := m.refer_num - 1 }
  else ⟨[], some { m with refer_num := m.refer_num - 1 }⟩

/-- The four operations of the reference-count and release protocol (section 4.3), named
after the members they stand for. -/
inductive RefOp where
  | setDefault
  | increase
  | decrease
  | release
  deriving DecidableEq, Repr

/-- One operation of the protocol applied to a buffer. -/
def RefOp.apply (b : Build) (env : Env) (m : SyncedMemory) : RefOp → Run SyncedMemory
  | RefOp.setDefault => ⟨[], some (default_reference m)⟩
  | RefOp.increase => ⟨[], some (increase_reference m)⟩
  | RefOp.decrease => decrease_reference b env m
  | RefOp.release => zhihan_release b env m

/-- One step of a sequence of protocol operations: the operation, the external calls it
made, and the buffer it left (`none` when the process was terminated). -/
structure RefStep where
  op : RefOp
  calls : List Call
  after : Option SyncedMemory

/-- The steps of a sequence of protocol operations run from `m`, in call order; the sequence
stops at a step that terminates the process. -/
def runRefOps (b : Build) (env : Env) : SyncedMemory → List RefOp → List RefStep
  | _, [] => []
  | m, op :: ops =>
    match (RefOp.apply b env m op).result with
    | none => [⟨op, (RefOp.apply b env m op).calls, none⟩]
    | some m1 => ⟨op, (RefOp.apply b env m op).calls, some m1⟩ :: runRefOps b env m1 ops

/-- The buffer left by a sequence of protocol operations run from `m`; `none` when the
process was terminated on the way. -/
def finalRefOps (b : Build) (env : Env) : SyncedMemory → List RefOp → Option SyncedMemory
  | m, [] => some m
  | m, op :: ops =>
    match (RefOp.apply b env m op).result with
    | none => none
    | some m1 => finalRefOps b env m1 ops

/-- A buffer that owns a pinned host region and a device region, both current. -/
def syncedOwned : SyncedMemory :=
  { refer_num := 0, cpu_ptr_ := 4096, gpu_ptr_ := 12288, size_ := 10, aligned_size_ := 4096,
    head_ := SyncedHead.SYNCED, own_cpu_data_ := true, cpu_malloc_use_cuda_ := true,
    own_gpu_data_ := true, device_ := 0 }

/-- A buffer whose host region is authoritative and whose device region is not allocated. -/
def hostOnly : SyncedMemory :=
  { refer_num := 1, cpu_ptr_ := 4096, gpu_ptr_ := 0, size_ := 10, aligned_size_ := 4096,
    head_ := SyncedHead.HEAD_AT_CPU, own_cpu_data_ := true, cpu_malloc_use_cuda_ := true,
    own_gpu_data_ := false, device_ := 0 }

/-! ## Alignment -/

theorem get_set_align_size (m : SyncedMemory) (size : Nat) :
    get_align_size (set_align_size m size)
      = (((size + 4095) % 2 ^ 64) / 4096 * 4096) % 2 ^ 64 := by
  simp [get_align_size, set_align_size, SIZE_MOD]

/-- The product `q * 4096` of the source never exceeds `2 ^ 64 - 4096`. -/
theorem align_product_bound (size : Nat) :
    ((size + 4095) % 2 ^ 64) / 4096 * 4096 ≤ 2 ^ 64 - 4096 := by
  have h : (size + 4095) % 2 ^ 64 < 2 ^ 64 := Nat.mod_lt _ (by norm_num)
  omega

theorem get_set_align_size_nowrap (m : SyncedMemory) (size : Nat) :
    get_align_size (set_align_size m size) = ((size + 4095) % 2 ^ 64) / 4096 * 4096 := by
  rw [get_set_align_size]
  have := align_product_bound size
  exact Nat.mod_eq_of_lt (by omega)

theorem get_set_align_size_small (m : SyncedMemory) (size : Nat) (h : size + 4095 < 2 ^ 64) :
    get_align_size (set_align_size m size) = (size + 4095) / 4096 * 4096 := by
  rw [get_set_align_size_nowrap, Nat.mod_eq_of_lt h]

theorem set_align_size_examples :
    get_align_size (set_align_size blank 0) = 0 ∧
    get_align_size (set_align_size blank 1) = 4096 ∧
    get_align_size (set_align_size blank 4096) = 4096 ∧
    get_align_size (set_align_size blank 4097) = 8192 := by
  decide

/-- C1, as stated, fails: for the `size_t` value `2 ^ 64 - 1` the sum `size + 4095` wraps to
`4094`, the aligned size is `0`, and `0` is smaller than the requested size. -/
theorem set_align_size_not_ge_at_max :
    2 ^ 64 - 1 < 2 ^ 64 ∧
    get_align_size (set_align_size blank (2 ^ 64 - 1)) = 0 ∧
    ¬ (2 ^ 64 - 1 ≤ get_align_size (set_align_size blank (2 ^ 64 - 1))) := by
  refine ⟨by norm_num, ?_, ?_⟩
  · rw [get_set_align_size_nowrap]; norm_num
  · rw [get_set_align_size_nowrap]; norm_num

/-- C1 (amended): for every `size_t` value `size`, the aligned size computed by
`set_align_size` is greater than or equal to `size` exactly when `size + 4095` does not wrap
around modulo `2 ^ 64`. -/
theorem set_align_size_ge_iff (m : SyncedMemory) (size : Nat) (hsize : size < 2 ^ 64) :
    size ≤ get_align_size (set_align_size m size) ↔ size + 4095 < 2 ^ 64 := by
  rw [get_set_align_size_nowrap]
  constructor
  · intro h
    by_contra hc
    have hw : (size + 4095) % 2 ^ 64 = size + 4095 - 2 ^ 64 := by
      rw [Nat.mod_eq_sub_mod (by omega)]
      exact Nat.mod_eq_of_lt (by omega)
    rw [hw] at h
    omega
  · intro h
    rw [Nat.mod_eq_of_lt h]
    omega

theorem set_align_size_ge_iff_witness :
    (4097 ≤ get_align_size (set_align_size blank 4097) ↔ 4097 + 4095 < 2 ^ 64) :=
  set_align_size_ge_iff blank 4097 (by norm_num)

/-- C6: when `size + 4095` is representable in `size_t`, the aligned size is the least
multiple of 4096 that is greater than or equal to `size`. -/
theorem set_align_size_least_multiple (m : SyncedMemory) (size : Nat)
    (h : size + 4095 < 2 ^ 64) :
    4096 ∣ get_align_size (set_align_size m size) ∧
    size ≤ get_align_size (set_align_size m size) ∧
    ∀ k : Nat, 4096 ∣ k → size ≤ k → get_align_size (set_align_size m size) ≤ k := by
  rw [get_set_align_size_small m size h]
  refine ⟨Dvd.intro_left _ rfl, by omega, ?_⟩
  rintro k ⟨c, rfl⟩ hk
  omega

theorem set_align_size_least_multiple_witness :
    4097 + 4095 < 2 ^ 64 ∧
    get_align_size (set_align_size blank 4097) = 8192 ∧
    (4096 ∣ get_align_size (set_align_size blank 4097) ∧
      4097 ≤ get_align_size (set_align_size blank 4097) ∧
      ∀ k : Nat, 4096 ∣ k → 4097 ≤ k → get_align_size (set_align_size blank 4097) ≤ k) :=
  ⟨by norm_num, by decide, set_align_size_least_multiple blank 4097 (by norm_num)⟩

/-- An already aligned `size_t` value, a multiple of 4096 below `2 ^ 64`, is returned
unchanged by `set_align_size`. -/
theorem set_align_size_of_aligned (m : SyncedMemory) (v : Nat) (hv : v < 2 ^ 64)
    (hdvd : 4096 ∣ v) : get_align_size (set_align_size m v) = v := by
  obtain ⟨c, rfl⟩ := hdvd
  rw [get_set_align_size_small m _ (by omega)]
  omega

/-- C10: for every `size` (every `size_t` value included, also those where `size + 4095`
wraps), the multiplication by 4096 does not wrap: the aligned size stored by
`set_align_size` is the product `((size + 4095) mod 2 ^ 64) / 4096 * 4096` itself, which is
below `2 ^ 64`; it is a multiple of 4096; and aligning is idempotent: `set_align_size`
applied to any already aligned value (any multiple of 4096 below `2 ^ 64`) returns that
value, in particular when applied to an aligned size it computed. -/
theorem set_align_size_multiple_idempotent (m m' : SyncedMemory) (size : Nat) :
    get_align_size (set_align_size m size) = ((size + 4095) % 2 ^ 64) / 4096 * 4096 ∧
    ((size + 4095) % 2 ^ 64) / 4096 * 4096 < 2 ^ 64 ∧
    get_align_size (set_align_size m size) < 2 ^ 64 ∧
    4096 ∣ get_align_size (set_align_size m size) ∧
    (∀ v : Nat, v < 2 ^ 64 → 4096 ∣ v → get_align_size (set_align_size m' v) = v) ∧
    get_align_size (set_align_size m' (get_align_size (set_align_size m size)))
      = get_align_size (set_align_size m size) := by
  have hb := align_product_bound size
  have heq := get_set_align_size_nowrap m size
  have hlt : get_align_size (set_align_size m size) < 2 ^ 64 := by rw [heq]; omega
  have hdvd : 4096 ∣ get_align_size (set_align_size m size) := by
    rw [heq]; exact Dvd.intro_left _ rfl
  exact ⟨heq, by omega, hlt, hdvd, fun v hv hd => set_align_size_of_aligned m' v hv hd,
    set_align_size_of_aligned m' _ hlt hdvd⟩

theorem set_align_size_multiple_idempotent_witness :
    get_align_size (set_align_size blank (2 ^ 64 - 1)) = 0 ∧
    get_align_size (set_align_size blank 4096) = 4096 ∧
    get_align_size (set_align_size blank (2 ^ 64 - 4096)) = 2 ^ 64 - 4096 :=
  ⟨by
      rw [(set_align_size_multiple_idempotent blank blank (2 ^ 64 - 1)).1]
      norm_num,
    (set_align_size_multiple_idempotent blank blank 0).2.2.2.2.1 4096 (by norm_num)
      (by decide),
    (set_align_size_multiple_idempotent blank blank 0).2.2.2.2.1 (2 ^ 64 - 4096)
      (by norm_num) (by norm_num)⟩

/-! ## Host allocator: requested bytes, reported flag, mirrored release, null check -/

theorem CHECK_eq_some {α : Type} (c : Bool) (a x : α) :
    CHECK c (some a) = some x ↔ c = true ∧ a = x := by
  cases c <;> simp [CHECK]

theorem CUDA_CHECK_eq_some {α : Type} (st : Nat) (a x : α) :
    CUDA_CHECK st (some a) = some x ↔ st = 0 ∧ a = x := by
  by_cases h : st = 0 <;> simp [CUDA_CHECK, h]

theorem CaffeMallocHost_pinned (b : Build) (env : Env) (ptr size : Nat) (uc : Bool)
    (aligned_size : Nat) (h : b.cpu_only = false ∧ env.mode = Brew.GPU) :
    CaffeMallocHost b env ptr size uc aligned_size =
      ⟨[Call.cudaMallocHost aligned_size],
        CUDA_CHECK (env.cudaMallocHost ptr aligned_size).1
          (some ((env.cudaMallocHost ptr aligned_size).2, true))⟩ := by
  unfold CaffeMallocHost
  rw [if_pos h]

theorem CaffeMallocHost_mkl (b : Build) (env : Env) (ptr size : Nat) (uc : Bool)
    (aligned_size : Nat) (h : ¬ (b.cpu_only = false ∧ env.mode = Brew.GPU))
    (hm : b.use_mkl = true) :
    CaffeMallocHost b env ptr size uc aligned_size =
      ⟨[Call.mkl_malloc (if size ≠ 0 then size else 1) 64],
        CHECK (decide (env.mkl_malloc (if size ≠ 0 then size else 1) 64 ≠ 0))
          (some (env.mkl_malloc (if size ≠ 0 then size else 1) 64, false))⟩ := by
  unfold CaffeMallocHost
  rw [if_neg h, if_pos hm]

theorem CaffeMallocHost_posix (b : Build) (env : Env) (ptr size : Nat) (uc : Bool)
    (aligned_size : Nat) (h : ¬ (b.cpu_only = false ∧ env.mode = Brew.GPU))
    (hm : ¬ b.use_mkl = true) :
    CaffeMallocHost b env ptr size uc aligned_size =
      ⟨[Call.posix_memalign 4096 aligned_size],
        CHECK (decide ((env.posix_memalign ptr 4096 aligned_size).2 ≠ 0))
          (some ((env.posix_memalign ptr 4096 aligned_size).2, false))⟩ := by
  unfold CaffeMallocHost
  rw [if_neg h, if_neg hm]

/-- C2, as stated, fails: in the math-library build outside GPU mode, a call with `size = 1`
and `aligned_size = 4096` (the aligned size of 1) requests `1` byte, which is `size` itself and
not `aligned_size`. -/
theorem CaffeMallocHost_mkl_requests_size :
    get_align_size (set_align_size blank 1) = 4096 ∧
    (CaffeMallocHost mklBuild (envOk Brew.CPU) 0 1 false 4096).calls = [Call.mkl_malloc 1 64] ∧
    requestedBytes (CaffeMallocHost mklBuild (envOk Brew.CPU) 0 1 false 4096).calls = [1] ∧
    requestedBytes (CaffeMallocHost mklBuild (envOk Brew.CPU) 0 1 false 4096).calls ≠ [4096] := by
  decide

/-- C2 (amended): every call of `CaffeMallocHost` makes exactly one allocator request; it is
`aligned_size` bytes on the pinned path (accelerator build in GPU mode) and on the
`posix_memalign` path (no math library), and `size` bytes, or 1 byte when `size` is 0, on the
math-library path. -/
theorem CaffeMallocHost_requested (b : Build) (env : Env) (ptr size : Nat) (uc : Bool)
    (aligned_size : Nat) :
    requestedBytes (CaffeMallocHost b env ptr size uc aligned_size).calls =
      if b.cpu_only = false ∧ env.mode = Brew.GPU then [aligned_size]
      else if b.use_mkl = true then [if size ≠ 0 then size else 1]
      else [aligned_size] := by
  by_cases h1 : b.cpu_only = false ∧ env.mode = Brew.GPU
  · rw [CaffeMallocHost_pinned _ _ _ _ _ _ h1, if_pos h1]
    simp [requestedBytes, Call.requested]
  · by_cases h2 : b.use_mkl = true
    · rw [CaffeMallocHost_mkl _ _ _ _ _ _ h1 h2, if_neg h1, if_pos h2]
      simp [requestedBytes, Call.requested]
    · rw [CaffeMallocHost_posix _ _ _ _ _ _ h1 h2, if_neg h1, if_neg h2]
      simp [requestedBytes, Call.requested]

/-- C3: when `CaffeMallocHost` returns, the reported flag is true exactly when accelerator
support is compiled in and the mode is GPU; then the pinned allocator was called with
`aligned_size` and no plain allocator was called; otherwise the pinned allocator was not
called and exactly one plain allocation was made. -/
theorem CaffeMallocHost_use_cuda (b : Build) (env : Env) (ptr size : Nat) (uc : Bool)
    (aligned_size p : Nat) (f : Bool)
    (hret : (CaffeMallocHost b env ptr size uc aligned_size).result = some (p, f)) :
    (f = true ↔ (b.cpu_only = false ∧ env.mode = Brew.GPU)) ∧
    (f = true →
      (CaffeMallocHost b env ptr size uc aligned_size).calls.filter Call.isPinnedAlloc
          = [Call.cudaMallocHost aligned_size] ∧
      (CaffeMallocHost b env ptr size uc aligned_size).calls.filter Call.isPlainAlloc = []) ∧
    (f = false →
      (CaffeMallocHost b env ptr size uc aligned_size).calls.filter Call.isPinnedAlloc = [] ∧
      ((CaffeMallocHost b env ptr size uc aligned_size).calls.filter Call.isPlainAlloc).length
          = 1) := by
  by_cases h1 : b.cpu_only = false ∧ env.mode = Brew.GPU
  · rw [CaffeMallocHost_pinned _ _ _ _ _ _ h1] at hret ⊢
    obtain ⟨-, hpf⟩ := (CUDA_CHECK_eq_some _ _ _).1 hret
    obtain ⟨-, rfl⟩ := Prod.mk.inj hpf
    simp [h1, Call.isPinnedAlloc, Call.isPlainAlloc]
  · by_cases h2 : b.use_mkl = true
    · rw [CaffeMallocHost_mkl _ _ _ _ _ _ h1 h2] at hret ⊢
      obtain ⟨-, hpf⟩ := (CHECK_eq_some _ _ _).1 hret
      obtain ⟨-, rfl⟩ := Prod.mk.inj hpf
      simp [h1, Call.isPinnedAlloc, Call.isPlainAlloc]
    · rw [CaffeMallocHost_posix _ _ _ _ _ _ h1 h2] at hret ⊢
      obtain ⟨-, hpf⟩ := (CHECK_eq_some _ _ _).1 hret
      obtain ⟨-, rfl⟩ := Prod.mk.inj hpf
      simp [h1, Call.isPinnedAlloc, Call.isPlainAlloc]

theorem CaffeMallocHost_use_cuda_witness :
    (CaffeMallocHost acceleratorBuild (envOk Brew.GPU) 0 10 false 4096).result
        = some (4096, true) ∧
    ((true = true ↔ (acceleratorBuild.cpu_only = false ∧ (envOk Brew.GPU).mode = Brew.GPU)) ∧
    (true = true →
      (CaffeMallocHost acceleratorBuild (envOk Brew.GPU) 0 10 false 4096).calls.filter
          Call.isPinnedAlloc = [Call.cudaMallocHost 4096] ∧
      (CaffeMallocHost acceleratorBuild (envOk Brew.GPU) 0 10 false 4096).calls.filter
          Call.isPlainAlloc = []) ∧
    (true = false →
      (CaffeMallocHost acceleratorBuild (envOk Brew.GPU) 0 10 false 4096).calls.filter
          Call.isPinnedAlloc = [] ∧
      ((CaffeMallocHost acceleratorBuild (envOk Brew.GPU) 0 10 false 4096).calls.filter
          Call.isPlainAlloc).length = 1)) :=
  ⟨by decide,
    CaffeMallocHost_use_cuda acceleratorBuild (envOk Brew.GPU) 0 10 false 4096 4096 true
      (by decide)⟩

/-- C4: in every build and whatever the mode at allocation (`env`) and at release (`env2`),
when `CaffeMallocHost` returns `p` with flag `f`, it made exactly one allocator call, and
`CaffeFreeHost(p, f)` makes exactly one call: the free routine matching that allocator
(`cudaFreeHost` for `cudaMallocHost`, `mkl_free` for `mkl_malloc`, `free` for
`posix_memalign`), applied to `p`. -/
theorem CaffeFreeHost_mirrors (b : Build) (env env2 : Env) (ptr size : Nat) (uc : Bool)
    (aligned_size p : Nat) (f : Bool)
    (hret : (CaffeMallocHost b env ptr size uc aligned_size).result = some (p, f)) :
    ∃ c fr, (CaffeMallocHost b env ptr size uc aligned_size).calls = [c] ∧
      matchingFree p c = some fr ∧
      (CaffeFreeHost b env2 p f).calls = [fr] := by
  by_cases h1 : b.cpu_only = false ∧ env.mode = Brew.GPU
  · rw [CaffeMallocHost_pinned _ _ _ _ _ _ h1] at hret ⊢
    obtain ⟨-, hpf⟩ := (CUDA_CHECK_eq_some _ _ _).1 hret
    obtain ⟨-, rfl⟩ := Prod.mk.inj hpf
    exact ⟨_, Call.cudaFreeHost p, rfl, rfl, by simp [CaffeFreeHost, h1.1]⟩
  · by_cases h2 : b.use_mkl = true
    · rw [CaffeMallocHost_mkl _ _ _ _ _ _ h1 h2] at hret ⊢
      obtain ⟨-, hpf⟩ := (CHECK_eq_some _ _ _).1 hret
      obtain ⟨-, rfl⟩ := Prod.mk.inj hpf
      exact ⟨_, Call.mkl_free p, rfl, rfl, by simp [CaffeFreeHost, h2]⟩
    · rw [CaffeMallocHost_posix _ _ _ _ _ _ h1 h2] at hret ⊢
      obtain ⟨-, hpf⟩ := (CHECK_eq_some _ _ _).1 hret
      obtain ⟨-, rfl⟩ := Prod.mk.inj hpf
      exact ⟨_, Call.free p, rfl, rfl, by simp [CaffeFreeHost, h2]⟩

theorem CaffeFreeHost_mirrors_witness :
    (CaffeMallocHost plainBuild (envOk Brew.GPU) 0 10 false 4096).result = some (8192, false) ∧
    (CaffeFreeHost plainBuild (envOk Brew.CPU) 8192 false).calls = [Call.free 8192] ∧
    ∃ c fr, (CaffeMallocHost plainBuild (envOk Brew.GPU) 0 10 false 4096).calls = [c] ∧
      matchingFree 8192 c = some fr ∧
      (CaffeFreeHost plainBuild (envOk Brew.CPU) 8192 false).calls = [fr] :=
  ⟨by decide, by decide,
    CaffeFreeHost_mirrors plainBuild (envOk Brew.GPU) (envOk Brew.CPU) 0 10 false 4096 8192 false
      (by decide)⟩

/-- C5, as stated, fails on the pinned path: in an accelerator build in GPU mode, when
`cudaMallocHost` reports success for a request of zero bytes and stores a null pointer, the
call returns normally with `*ptr` null: `return` comes before `CHECK(*ptr)`. -/
theorem CaffeMallocHost_pinned_returns_null :
    envPinnedNull.cudaMallocHost 0 0 = (0, 0) ∧
    (CaffeMallocHost acceleratorBuild envPinnedNull 0 0 false 0).calls
        = [Call.cudaMallocHost 0] ∧
    (CaffeMallocHost acceleratorBuild envPinnedNull 0 0 false 0).result = some (0, true) := by
  decide

/-- C5 (amended): on the plain paths (math library, `posix_memalign`), for every size, the
call returns exactly when the allocator left `*ptr` non-null, and then returns that pointer:
a null pointer always reaches the fatal check. On the pinned path the call returns exactly
when `cudaMallocHost` reports success; the pointer is not checked there. -/
theorem CaffeMallocHost_null_check (b : Build) (env : Env) (ptr size : Nat) (uc : Bool)
    (aligned_size : Nat) :
    (¬ (b.cpu_only = false ∧ env.mode = Brew.GPU) →
      (∀ p f, (CaffeMallocHost b env ptr size uc aligned_size).result = some (p, f) → p ≠ 0) ∧
      (b.use_mkl = true →
        ((CaffeMallocHost b env ptr size uc aligned_size).result = none ↔
          env.mkl_malloc (if size ≠ 0 then size else 1) 64 = 0) ∧
        (env.mkl_malloc (if size ≠ 0 then size else 1) 64 ≠ 0 →
          (CaffeMallocHost b env ptr size uc aligned_size).result
            = some (env.mkl_malloc (if size ≠ 0 then size else 1) 64, false))) ∧
      (b.use_mkl = false →
        ((CaffeMallocHost b env ptr size uc aligned_size).result = none ↔
          (env.posix_memalign ptr 4096 aligned_size).2 = 0) ∧
        ((env.posix_memalign ptr 4096 aligned_size).2 ≠ 0 →
          (CaffeMallocHost b env ptr size uc aligned_size).result
            = some ((env.posix_memalign ptr 4096 aligned_size).2, false)))) ∧
    (b.cpu_only = false ∧ env.mode = Brew.GPU →
      ((CaffeMallocHost b env ptr size uc aligned_size).result = none ↔
        (env.cudaMallocHost ptr aligned_size).1 ≠ 0) ∧
      ((env.cudaMallocHost ptr aligned_size).1 = 0 →
        (CaffeMallocHost b env ptr size uc aligned_size).result
          = some ((env.cudaMallocHost ptr aligned_size).2, true))) := by
  refine ⟨fun h1 => ?_, fun h1 => ?_⟩
  · by_cases h2 : b.use_mkl = true
    · rw [CaffeMallocHost_mkl _ _ _ _ _ _ h1 h2]
      by_cases h3 : env.mkl_malloc (if size ≠ 0 then size else 1) 64 = 0
      · simp [CHECK, h3, h2]
      · simp [CHECK, h3, h2]
    · rw [CaffeMallocHost_posix _ _ _ _ _ _ h1 h2]
      by_cases h3 : (env.posix_memalign ptr 4096 aligned_size).2 = 0
      · simp [CHECK, h3, h2]
      · simp [CHECK, h3, h2]
  · rw [CaffeMallocHost_pinned _ _ _ _ _ _ h1]
    by_cases h3 : (env.cudaMallocHost ptr aligned_size).1 = 0
    · simp [CUDA_CHECK, h3]
    · simp [CUDA_CHECK, h3]

theorem CaffeMallocHost_null_check_witness :
    ¬ (plainBuild.cpu_only = false ∧ (envOk Brew.CPU).mode = Brew.GPU) ∧
    plainBuild.use_mkl = false ∧
    ((envOk Brew.CPU).posix_memalign 0 4096 0).2 ≠ 0 ∧
    (CaffeMallocHost plainBuild (envOk Brew.CPU) 0 0 false 0).result = some (8192, false) :=
  ⟨by decide, by decide, by decide,
    (((CaffeMallocHost_null_check plainBuild (envOk Brew.CPU) 0 0 false 0).1
      (by decide)).2.2 (by decide)).2 (by decide)⟩

/-! ## Synchronised buffer: state machine -/

theorem to_cpu_of_synced (b : Build) (env : Env) (m : SyncedMemory)
    (hhead : m.head_ = SyncedHead.SYNCED) : to_cpu b env m = ⟨[], some m⟩ := by
  simp [to_cpu, hhead]

theorem to_gpu_of_synced (b : Build) (env : Env) (m : SyncedMemory) (hb : b.cpu_only = false)
    (hhead : m.head_ = SyncedHead.SYNCED) : to_gpu b env m = ⟨[], some m⟩ := by
  simp [to_gpu, hb, hhead]

/-- From `HEAD_AT_CPU`, in an accelerator build where the device operations succeed, `to_gpu`
returns a `SYNCED` buffer after exactly one copy, from host to device. -/
theorem to_gpu_of_head_at_cpu (b : Build) (env : Env) (m : SyncedMemory)
    (hb : b.cpu_only = false) (hhead : m.head_ = SyncedHead.HEAD_AT_CPU)
    (halloc : m.gpu_ptr_ = 0 → (env.device_alloc m.gpu_ptr_ m.aligned_size_).1 = 0)
    (hcopy : ∀ dst src n, env.copy_host_to_device dst src n = 0) :
    ∃ m1, (to_gpu b env m).result = some m1 ∧ m1.head_ = SyncedHead.SYNCED ∧
      (to_gpu b env m).calls.filter Call.isCopy = [Call.copy_host_to_device] := by
  by_cases hp : m.gpu_ptr_ = 0
  · have ha := halloc hp
    rw [hp] at ha
    refine ⟨{ m with gpu_ptr_ := (env.device_alloc m.gpu_ptr_ m.aligned_size_).2,
                     own_gpu_data_ := true, head_ := SyncedHead.SYNCED }, ?_, rfl, ?_⟩
    · simp [to_gpu, hb, hhead, alloc_device_if_absent, hp, Run.andThen, CUDA_CHECK, hcopy, ha]
    · simp [to_gpu, hb, hhead, alloc_device_if_absent, hp, Run.andThen, CUDA_CHECK, ha,
        Call.isCopy]
  · refine ⟨{ m with head_ := SyncedHead.SYNCED }, ?_, rfl, ?_⟩
    · simp [to_gpu, hb, hhead, alloc_device_if_absent, hp, Run.andThen, CUDA_CHECK, hcopy]
    · simp [to_gpu, hb, hhead, alloc_device_if_absent, hp, Run.andThen, Call.isCopy]

/-- C7: for every buffer whose head is `HEAD_AT_CPU`, in an accelerator build where the
device allocation (if the device region is absent) and the copy succeed, `gpu_data()`
returns after exactly one copy, from host to device, with `head = SYNCED`; a second
consecutive `gpu_data()` returns after no call at all, with `head = SYNCED`. -/
theorem gpu_data_single_copy (b : Build) (env : Env) (m : SyncedMemory)
    (hb : b.cpu_only = false) (hhead : m.head_ = SyncedHead.HEAD_AT_CPU)
    (halloc : m.gpu_ptr_ = 0 → (env.device_alloc m.gpu_ptr_ m.aligned_size_).1 = 0)
    (hcopy : ∀ dst src n, env.copy_host_to_device dst src n = 0) :
    ∃ m1 m2 : SyncedMemory,
      (gpu_data b env m).result = some (m1, m1.gpu_ptr_) ∧
      (gpu_data b env m).calls.filter Call.isCopy = [Call.copy_host_to_device] ∧
      m1.head_ = SyncedHead.SYNCED ∧
      (gpu_data b env m1).result = some (m2, m2.gpu_ptr_) ∧
      (gpu_data b env m1).calls = [] ∧
      m2.head_ = SyncedHead.SYNCED := by
  obtain ⟨m1, hres, hsync, hcalls⟩ := to_gpu_of_head_at_cpu b env m hb hhead halloc hcopy
  refine ⟨m1, m1, ?_, ?_, hsync, ?_, ?_, hsync⟩
  · simp [gpu_data, Run.andThen, hres]
  · simpa [gpu_data, Run.andThen, hres] using hcalls
  · simp [gpu_data, Run.andThen, to_gpu_of_synced b env m1 hb hsync]
  · simp [gpu_data, Run.andThen, to_gpu_of_synced b env m1 hb hsync]

theorem gpu_data_single_copy_witness :
    (gpu_data acceleratorBuild (envOk Brew.GPU) hostOnly).calls
        = [Call.device_alloc 4096, Call.copy_host_to_device] ∧
    ∃ m1 m2 : SyncedMemory,
      (gpu_data acceleratorBuild (envOk Brew.GPU) hostOnly).result = some (m1, m1.gpu_ptr_) ∧
      (gpu_data acceleratorBuild (envOk Brew.GPU) hostOnly).calls.filter Call.isCopy
          = [Call.copy_host_to_device] ∧
      m1.head_ = SyncedHead.SYNCED ∧
      (gpu_data acceleratorBuild (envOk Brew.GPU) m1).result = some (m2, m2.gpu_ptr_) ∧
      (gpu_data acceleratorBuild (envOk Brew.GPU) m1).calls = [] ∧
      m2.head_ = SyncedHead.SYNCED :=
  ⟨by decide,
    gpu_data_single_copy acceleratorBuild (envOk Brew.GPU) hostOnly rfl rfl
      (fun _ => rfl) (fun _ _ _ => rfl)⟩

/-- C8: for every buffer whose head is `SYNCED`, in an accelerator build where the device
operations succeed: `mutable_cpu_data()` makes no call (no copy) and moves head to
`HEAD_AT_CPU`, and a following `gpu_data()` makes exactly one copy, from host to device, and
leaves `SYNCED`; `mutable_gpu_data()` makes no call and moves head to `HEAD_AT_GPU`;
`cpu_data()` and `gpu_data()` make no call and leave the buffer unchanged, `SYNCED`. -/
theorem mutable_cpu_data_demotes (b : Build) (env : Env) (m : SyncedMemory)
    (hb : b.cpu_only = false) (hhead : m.head_ = SyncedHead.SYNCED)
    (halloc : m.gpu_ptr_ = 0 → (env.device_alloc m.gpu_ptr_ m.aligned_size_).1 = 0)
    (hcopy : ∀ dst src n, env.copy_host_to_device dst src n = 0) :
    (mutable_cpu_data b env m
        = ⟨[], some ({ m with head_ := SyncedHead.HEAD_AT_CPU }, m.cpu_ptr_)⟩ ∧
      ∃ m2 : SyncedMemory,
        (gpu_data b env { m with head_ := SyncedHead.HEAD_AT_CPU }).result
            = some (m2, m2.gpu_ptr_) ∧
        (gpu_data b env { m with head_ := SyncedHead.HEAD_AT_CPU }).calls.filter Call.isCopy
            = [Call.copy_host_to_device] ∧
        m2.head_ = SyncedHead.SYNCED) ∧
    mutable_gpu_data b env m
        = ⟨[], some ({ m with head_ := SyncedHead.HEAD_AT_GPU }, m.gpu_ptr_)⟩ ∧
    cpu_data b env m = ⟨[], some (m, m.cpu_ptr_)⟩ ∧
    gpu_data b env m = ⟨[], some (m, m.gpu_ptr_)⟩ := by
  refine ⟨⟨?_, ?_⟩, ?_, ?_, ?_⟩
  · simp [mutable_cpu_data, Run.andThen, to_cpu_of_synced b env m hhead]
  · obtain ⟨m2, hres, hsync, hcalls⟩ :=
      to_gpu_of_head_at_cpu b env { m with head_ := SyncedHead.HEAD_AT_CPU } hb rfl halloc hcopy
    refine ⟨m2, ?_, ?_, hsync⟩
    · simp [gpu_data, Run.andThen, hres]
    · simpa [gpu_data, Run.andThen, hres] using hcalls
  · simp [mutable_gpu_data, Run.andThen, to_gpu_of_synced b env m hb hhead]
  · simp [cpu_data, Run.andThen, to_cpu_of_synced b env m hhead]
  · simp [gpu_data, Run.andThen, to_gpu_of_synced b env m hb hhead]

theorem mutable_cpu_data_demotes_witness :
    (mutable_cpu_data acceleratorBuild (envOk Brew.GPU) syncedOwned
        = ⟨[], some ({ syncedOwned with head_ := SyncedHead.HEAD_AT_CPU },
            syncedOwned.cpu_ptr_)⟩ ∧
      ∃ m2 : SyncedMemory,
        (gpu_data acceleratorBuild (envOk Brew.GPU)
            { syncedOwned with head_ := SyncedHead.HEAD_AT_CPU }).result
            = some (m2, m2.gpu_ptr_) ∧
        (gpu_data acceleratorBuild (envOk Brew.GPU)
            { syncedOwned with head_ := SyncedHead.HEAD_AT_CPU }).calls.filter Call.isCopy
            = [Call.copy_host_to_device] ∧
        m2.head_ = SyncedHead.SYNCED) ∧
    mutable_gpu_data acceleratorBuild (envOk Brew.GPU) syncedOwned
        = ⟨[], some ({ syncedOwned with head_ := SyncedHead.HEAD_AT_GPU },
            syncedOwned.gpu_ptr_)⟩ ∧
    cpu_data acceleratorBuild (envOk Brew.GPU) syncedOwned
        = ⟨[], some (syncedOwned, syncedOwned.cpu_ptr_)⟩ ∧
    gpu_data acceleratorBuild (envOk Brew.GPU) syncedOwned
        = ⟨[], some (syncedOwned, syncedOwned.gpu_ptr_)⟩ :=
  mutable_cpu_data_demotes acceleratorBuild (envOk Brew.GPU) syncedOwned rfl rfl
    (fun h => absurd h (by decide)) (fun _ _ _ => rfl)

/-! ## Reference counting and release -/

theorem andThen_result_some {α β : Type} (r : Run α) (f : α → Run β) (y : β)
    (h : (r.andThen f).result = some y) :
    ∃ a, r.result = some a ∧ (f a).result = some y := by
  unfold Run.andThen at h
  cases hr : r.result with
  | none => rw [hr] at h; simp at h
  | some a => rw [hr] at h; exact ⟨a, rfl, h⟩

theorem andThen_result_of_some {α β : Type} (r : Run α) (f : α → Run β) (a : α)
    (h : r.result = some a) : (r.andThen f).result = (f a).result := by
  unfold Run.andThen
  rw [h]

/-- A release that returns leaves the buffer with both pointers null, `head_` uninitialised,
and every other member as it was. -/
theorem zhihan_release_result (b : Build) (env : Env) (m m1 : SyncedMemory)
    (h : (zhihan_release b env m).result = some m1) :
    m1 = { m with cpu_ptr_ := 0, gpu_ptr_ := 0, head_ := SyncedHead.UNINITIALIZED } := by
  unfold zhihan_release at h
  obtain ⟨_, -, h2⟩ := andThen_result_some _ _ _ h
  obtain ⟨_, -, h3⟩ := andThen_result_some _ _ _ h2
  simpa using h3.symm

/-- A release returns when the free routines it calls report success. -/
theorem zhihan_release_returns (b : Build) (env : Env) (m : SyncedMemory)
    (hhost : env.cudaFreeHost m.cpu_ptr_ = 0) (hdev : env.device_free m.gpu_ptr_ = 0) :
    (zhihan_release b env m).result
      = some { m with cpu_ptr_ := 0, gpu_ptr_ := 0, head_ := SyncedHead.UNINITIALIZED } := by
  have hfree : (CaffeFreeHost b env m.cpu_ptr_ m.cpu_malloc_use_cuda_).result = some () := by
    unfold CaffeFreeHost
    split_ifs <;> simp [CUDA_CHECK, hhost]
  have hA : (if m.cpu_ptr_ ≠ 0 ∧ m.own_cpu_data_ = true
      then CaffeFreeHost b env m.cpu_ptr_ m.cpu_malloc_use_cuda_
      else ⟨[], some ()⟩).result = some () := by
    split_ifs
    · exact hfree
    · rfl
  have hB : (if m.gpu_ptr_ ≠ 0 ∧ m.own_gpu_data_ = true
      then (⟨[Call.device_free m.gpu_ptr_], CUDA_CHECK (env.device_free m.gpu_ptr_) (some ())⟩ :
        Run Unit)
      else ⟨[], some ()⟩).result = some () := by
    split_ifs
    · simp [CUDA_CHECK, hdev]
    · rfl
  unfold zhihan_release
  rw [andThen_result_of_some _ _ _ hA, andThen_result_of_some _ _ _ hB]

/-- A `decrease_reference()` that returns with a positive count made no call. -/
theorem decrease_reference_positive (b : Build) (env : Env) (m m1 : SyncedMemory)
    (h : (decrease_reference b env m).result = some m1) (hpos : 0 < m1.refer_num) :
    (decrease_reference b env m).calls = [] ∧ m1 = { m with refer_num := m.refer_num - 1 } := by
  unfold decrease_reference at h ⊢
  by_cases h0 : m.refer_num - 1 = 0
  · rw [if_pos h0] at h
    have := zhihan_release_result b env _ m1 h
    rw [this] at hpos
    simp only at hpos
    omega
  · rw [if_neg h0] at h ⊢
    simp only [Option.some.injEq] at h
    exact ⟨rfl, h.symm⟩

theorem runRefOps_decrease_positive (b : Build) (env : Env) (ops : List RefOp) :
    ∀ (m0 : SyncedMemory) (step : RefStep), step ∈ runRefOps b env m0 ops →
      step.op = RefOp.decrease → ∀ m1, step.after = some m1 → 0 < m1.refer_num →
      step.calls = [] := by
  induction ops with
  | nil => intro m0 step hmem; simp [runRefOps] at hmem
  | cons op ops ih =>
    intro m0 step hmem hop m1 hafter hpos
    unfold runRefOps at hmem
    cases hr : (RefOp.apply b env m0 op).result with
    | none =>
      rw [hr] at hmem
      simp only [List.mem_singleton] at hmem
      rw [hmem] at hafter
      simp at hafter
    | some m2 =>
      rw [hr] at hmem
      simp only [List.mem_cons] at hmem
      rcases hmem with hhead | htail
      · subst hhead
        simp only at hop hafter ⊢
        subst hop
        simp only [Option.some.injEq] at hafter
        subst hafter
        exact (decrease_reference_positive b env m0 m2 hr hpos).1
      · exact ih m2 step htail hop m1 hafter hpos

/-- C9: on every buffer, when the free routines report success, `default_reference()`, two
`increase_reference()` and three `decrease_reference()` return and leave the buffer released:
both pointers null and `head = UNINITIALIZED`; the first two decrements make no call and
the third releases. And in every sequence of protocol operations run from any buffer, a
`decrease_reference()` that leaves `ref_count > 0` makes no call, so frees nothing. -/
theorem reference_counting (b : Build) (env : Env) (m : SyncedMemory)
    (hhost : env.cudaFreeHost m.cpu_ptr_ = 0) (hdev : env.device_free m.gpu_ptr_ = 0) :
    (∃ m1 : SyncedMemory,
      finalRefOps b env m
        [RefOp.setDefault, RefOp.increase, RefOp.increase,
          RefOp.decrease, RefOp.decrease, RefOp.decrease] = some m1 ∧
      m1.cpu_ptr_ = 0 ∧ m1.gpu_ptr_ = 0 ∧ m1.head_ = SyncedHead.UNINITIALIZED ∧
      m1.refer_num = 0) ∧
    (∀ (m0 : SyncedMemory) (ops : List RefOp) (step : RefStep),
      step ∈ runRefOps b env m0 ops → step.op = RefOp.decrease →
      ∀ m1, step.after = some m1 → 0 < m1.refer_num →
      step.calls.filter Call.isFree = [] ∧ step.calls = []) := by
  refine ⟨?_, ?_⟩
  · have hrel := zhihan_release_returns b env { m with refer_num := 0 } hhost hdev
    refine ⟨{ m with refer_num := 0, cpu_ptr_ := 0, gpu_ptr_ := 0,
                     head_ := SyncedHead.UNINITIALIZED }, ?_, rfl, rfl, rfl, rfl⟩
    simp [finalRefOps, RefOp.apply, default_reference, increase_reference,
      decrease_reference, hrel]
  · intro m0 ops step hmem hop m1 hafter hpos
    have := runRefOps_decrease_positive b env ops m0 step hmem hop m1 hafter hpos
    rw [this]
    exact ⟨rfl, rfl⟩

theorem reference_counting_witness :
    (finalRefOps acceleratorBuild (envOk Brew.GPU) syncedOwned
        [RefOp.setDefault, RefOp.increase, RefOp.increase,
          RefOp.decrease, RefOp.decrease, RefOp.decrease]).map
        (fun m1 => (m1.cpu_ptr_, m1.gpu_ptr_, m1.head_))
      = some (0, 0, SyncedHead.UNINITIALIZED) ∧
    (runRefOps acceleratorBuild (envOk Brew.GPU) syncedOwned
        [RefOp.setDefault, RefOp.increase, RefOp.increase,
          RefOp.decrease, RefOp.decrease, RefOp.decrease]).map (fun st => st.calls)
      = [[], [], [], [], [], [Call.cudaFreeHost 4096, Call.device_free 12288]] ∧
    ((∃ m1 : SyncedMemory,
      finalRefOps acceleratorBuild (envOk Brew.GPU) syncedOwned
        [RefOp.setDefault, RefOp.increase, RefOp.increase,
          RefOp.decrease, RefOp.decrease, RefOp.decrease] = some m1 ∧
      m1.cpu_ptr_ = 0 ∧ m1.gpu_ptr_ = 0 ∧ m1.head_ = SyncedHead.UNINITIALIZED ∧
      m1.refer_num = 0) ∧
    (∀ (m0 : SyncedMemory) (ops : List RefOp) (step : RefStep),
      step ∈ runRefOps acceleratorBuild (envOk Brew.GPU) m0 ops → step.op = RefOp.decrease →
      ∀ m1, step.after = some m1 → 0 < m1.refer_num →
      step.calls.filter Call.isFree = [] ∧ step.calls = [])) :=
  ⟨by decide, by decide,
    reference_counting acceleratorBuild (envOk Brew.GPU) syncedOwned rfl rfl⟩

end caffe
